import Mathlib

/-!
Shallow embedding of the voice-bot Streamlit application (src/app.py).

The program is a single pipeline: record audio in the browser, save the raw bytes
as a WAV file, transcribe with AssemblyAI (with a retry loop), send the text to the
OpenRouter chat API, synthesise a reply with gTTS, and play it back.  External
effects (the filesystem under ./audio_files, the AssemblyAI SDK, the HTTP client,
gTTS) are embedded as explicit state and oracle parameters; byte strings are
`List Nat`; a Python `None`-or-value result is `Option`; an uncaught Python
exception is the `raise` constructor of `PyResult`.
-/

/-- Parameters written into a WAV header by `wave.open(...).setnchannels/
setsampwidth/setframerate` (src/app.py lines 125-129). -/
structure WavParams where
  nchannels : Nat
  sampwidth : Nat
  framerate : Nat
deriving DecidableEq

/-- What the embedding records about one file on disk: its byte size and, for a
WAV file, the header parameters it was written with. -/
structure FileData where
  size : Nat
  wav : Option WavParams
deriving DecidableEq

/-- The filesystem under ./audio_files, as an association list from path to file
data.  Writing replaces any file previously at the path; unlinking removes it. -/
abbrev FS := List (String × FileData)

/-- Create or overwrite the file at path `p`. -/
def fsWrite (fs : FS) (p : String) (d : FileData) : FS :=
  (p, d) :: fs.filter (fun e => e.1 != p)

/-- `os.unlink(p)`: remove the file at path `p`. -/
def fsUnlink (fs : FS) (p : String) : FS :=
  fs.filter (fun e => e.1 != p)

/-- `AUDIO_DIR = "./audio_files"` (src/app.py line 54). -/
def AUDIO_DIR : String := "./audio_files"

/-- The recording path `os.path.join(AUDIO_DIR, f"recording_{int(time.time())}.wav")`
built in save_as_wav (src/app.py lines 122-123); `now` is `int(time.time())`. -/
def recording_path (now : Nat) : String :=
  AUDIO_DIR ++ "/recording_" ++ toString now ++ ".wav"

/-- The TTS path `os.path.join(AUDIO_DIR, f"tts_{int(time.time())}.mp3")` built in
text_to_speech (src/app.py line 109). -/
def tts_path (now : Nat) : String :=
  AUDIO_DIR ++ "/tts_" ++ toString now ++ ".mp3"

/-- The Python `wave` module writes the canonical 44-byte RIFF/PCM header in front
of the frame data, so the file saved by save_as_wav has size 44 + len(audio_bytes). -/
def WAVE_HEADER_SIZE : Nat := 44

/-- Embeds `save_as_wav(audio_bytes, sample_rate=48000, channels=1, sample_width=2)`
(src/app.py lines 116-142).  Rejects empty or sub-1000-byte input without touching
the filesystem; otherwise writes the WAV file, then deletes it again and returns
`none` if the written file is smaller than 1000 bytes, else returns its path.
Every call in the program uses the Python default arguments 48000/1/2. -/
def save_as_wav (fs : FS) (audio_bytes : List Nat)
    (sample_rate channels sample_width now : Nat) : FS × Option String :=
  if audio_bytes.isEmpty = true ∨ audio_bytes.length < 1000 then (fs, none)
  else
    let file_path := recording_path now
    let file_size := WAVE_HEADER_SIZE + audio_bytes.length
    let fs1 := fsWrite fs file_path
      ⟨file_size, some ⟨channels, sample_width, sample_rate⟩⟩
    if file_size < 1000 then (fsUnlink fs1 file_path, none)
    else (fs1, some file_path)

/-- A Python computation that either returns a value or escapes with an uncaught
exception. -/
inductive PyResult (α : Type) where
  | ret : α → PyResult α
  | raise : String → PyResult α
deriving DecidableEq

/-- One message of the OpenRouter chat payload (src/app.py line 96). -/
structure ChatMessage where
  role : String
  content : String
deriving DecidableEq

/-- One element of `result["choices"]` in the OpenRouter JSON response. -/
structure ChatChoice where
  message : ChatMessage
deriving DecidableEq

/-- The OpenRouter JSON response body, as far as get_response reads it. -/
structure ChatResponse where
  choices : List ChatChoice
deriving DecidableEq

/-- Outcome of `requests.post(OPENROUTER_URL, ...)` followed by
`raise_for_status()`: either some `requests.RequestException` was raised
(connection error or non-2xx status), or a JSON body came back. -/
inductive HttpResult where
  | reqExn : String → HttpResult
  | ok : ChatResponse → HttpResult

/-- The request payload built by get_response (src/app.py line 96). -/
structure Payload where
  model : String
  messages : List ChatMessage
deriving DecidableEq

/-- The exact payload get_response posts for a given prompt:
`{"model": "openai/gpt-4o-mini", "messages": [{"role": "user", "content": prompt}]}`. -/
def payloadOf (prompt : String) : Payload :=
  ⟨"openai/gpt-4o-mini", [⟨"user", prompt⟩]⟩

/-- Embeds `get_response(prompt)` (src/app.py lines 91-104).  The first component
records the HTTP request that was issued (`none` = no request was made).  With no
API key it returns None without posting.  On a RequestException it returns None.
Otherwise it returns `result["choices"][0]["message"]["content"]`; an empty
`choices` list would make the subscript raise an uncaught exception. -/
def get_response (api_key : Option String) (http : Payload → HttpResult)
    (prompt : String) : Option Payload × PyResult (Option String) :=
  match api_key with
  | none => (none, PyResult.ret none)
  | some _ =>
    let payload := payloadOf prompt
    match http payload with
    | HttpResult.reqExn _ => (some payload, PyResult.ret none)
    | HttpResult.ok result =>
      match result.choices with
      | [] => (some payload, PyResult.raise "IndexError")
      | c :: _ => (some payload, PyResult.ret (some c.message.content))

/-- Embeds `text_to_speech(text)` (src/app.py lines 106-114).  The gTTS oracle is
`none` when `gTTS(text)`/`tts.save` raises (caught: returns None, nothing written)
and `some sz` when it saves an MP3 of `sz` bytes at `tts_path now`. -/
def text_to_speech (gtts : Option Nat) (_text : String) (now : Nat) (fs : FS) :
    FS × Option String :=
  match gtts with
  | none => (fs, none)
  | some sz => (fsWrite fs (tts_path now) ⟨sz, none⟩, some (tts_path now))

/-- Outcome of one `transcriber.transcribe(file_path, config=config)` attempt:
the SDK call raised, or the returned transcript has error status (which the code
turns into a raised exception, src/app.py lines 184-185), or a completed
transcript whose `text` field is `none` (absent/None) or `some` raw text. -/
inductive AttemptResult where
  | exn : String → AttemptResult
  | errorStatus : String → AttemptResult
  | ok : Option String → AttemptResult

/-- Python `str.lower()`: lowercase every character. -/
def pyLower (s : String) : String :=
  String.mk (s.data.map Char.toLower)

/-- Python `str.strip()`: drop whitespace from both ends. -/
def pyStrip (s : String) : String :=
  String.mk
    (((s.data.dropWhile Char.isWhitespace).reverse.dropWhile
        Char.isWhitespace).reverse)

/-- Python truthiness of an optional string: `None` and `""` are falsy. -/
def optTruthy (o : Option String) : Bool :=
  match o with
  | none => false
  | some t => t != ""

/-- The hallucination filter list of transcribe_audio (src/app.py line 200). -/
def hallucination_list : List String :=
  ["thank you", "thank you.", "thanks for watching", ""]

/-- The body of one iteration of transcribe_audio's retry loop after the
transcribe call came back (src/app.py lines 182-219): raised exceptions and
error-status transcripts become `Except.error`; otherwise the text is stripped,
the hallucination filter applied, the WAV file unlinked, and the text (or None)
returned. -/
def attemptBody (r : AttemptResult) (fs : FS) (file_path : String) :
    Except String (FS × Option String) :=
  match r with
  | AttemptResult.exn e => Except.error e
  | AttemptResult.errorStatus e => Except.error ("Transcription error: " ++ e)
  | AttemptResult.ok raw =>
    let text : Option String :=
      match raw with
      | none => none
      | some t => if t = "" then none else some (pyStrip t)
    if optTruthy text = true ∧ pyLower (text.getD "") ∈ hallucination_list then
      Except.ok (fsUnlink fs file_path, none)
    else
      let fs1 := fsUnlink fs file_path
      if optTruthy text = true then Except.ok (fs1, text)
      else Except.ok (fs1, none)

/-- Observable timing events of transcribe_audio: each `transcriber.transcribe`
call (with its 0-based attempt index) and each `sleep(2)`. -/
inductive TEvent where
  | attemptCall : Nat → TEvent
  | sleepSec : Nat → TEvent
deriving DecidableEq

/-- Embeds `for attempt in range(retries): try ... except` (src/app.py lines
178-226) with `remaining` attempts left.  A successful body returns out of the
loop; a failure sleeps 2 seconds and retries unless this was the last attempt,
in which case the exception is re-raised (`Except.error`). -/
def retryLoop (env : Nat → AttemptResult) (file_path : String)
    (attempt remaining : Nat) (fs : FS) :
    FS × List TEvent × Except String (Option String) :=
  match remaining with
  | 0 => (fs, [], Except.ok none)
  | r + 1 =>
    match attemptBody (env attempt) fs file_path with
    | Except.ok res => (res.1, [TEvent.attemptCall attempt], Except.ok res.2)
    | Except.error e =>
      if r = 0 then (fs, [TEvent.attemptCall attempt], Except.error e)
      else
        let rest := retryLoop env file_path (attempt + 1) r fs
        (rest.1, TEvent.attemptCall attempt :: TEvent.sleepSec 2 :: rest.2.1,
          rest.2.2)

/-- Embeds `transcribe_audio(audio_bytes)` (src/app.py lines 144-232): empty
input or missing AssemblyAI key returns None; otherwise the bytes are saved via
save_as_wav (Python default arguments 48000/1/2) and the retry loop runs with
`retries = 3`; an exception escaping the loop is caught by the outer handler,
which unlinks the WAV file and returns None. -/
def transcribe_audio (api_key : Option String) (env : Nat → AttemptResult)
    (audio_bytes : List Nat) (now : Nat) (fs : FS) :
    FS × List TEvent × Option String :=
  if audio_bytes.isEmpty = true then (fs, [], none)
  else if api_key.isNone = true then (fs, [], none)
  else
    match save_as_wav fs audio_bytes 48000 1 2 now with
    | (fs1, none) => (fs1, [], none)
    | (fs1, some file_path) =>
      match retryLoop env file_path 0 3 fs1 with
      | (fs2, evs, Except.ok t) => (fs2, evs, t)
      | (fs2, evs, Except.error _) => (fsUnlink fs2 file_path, evs, none)

/-- An attempt outcome that the retry loop counts as a failure: the SDK call
raised, or the transcript had error status (which line 185 turns into a raise). -/
def isFailedAttempt (r : AttemptResult) : Bool :=
  match r with
  | AttemptResult.exn _ => true
  | AttemptResult.errorStatus _ => true
  | AttemptResult.ok _ => false

/-- Number of `transcriber.transcribe` calls recorded in an event list. -/
def countAttemptCalls (evs : List TEvent) : Nat :=
  (evs.filter (fun e =>
    match e with
    | TEvent.attemptCall _ => true
    | _ => false)).length

/-- An audio frame delivered by the WebRTC callback; `bytes` models
`frame.to_ndarray().tobytes()` (src/app.py line 243-244). -/
structure AudioFrame where
  bytes : List Nat
deriving DecidableEq

/-- A lock acquisition or release of `self.lock` (`threading.Lock`),
as performed by every `with self.lock:` block of AudioProcessor. -/
inductive LockEvent where
  | acq : LockEvent
  | rel : LockEvent
deriving DecidableEq

/-- The state of the `AudioProcessor` class (src/app.py lines 235-257): the
`self.audio_frames` list of captured frame byte strings.  The `threading.Lock`
held in `self.lock` is modelled by the `LockEvent` trace each method emits. -/
structure AudioProcessor where
  audio_frames : List (List Nat)
deriving DecidableEq

/-- `__init__` (src/app.py lines 236-238): empty frame buffer, fresh lock. -/
def AudioProcessor.init : AudioProcessor := ⟨[]⟩

/-- `recv` (src/app.py lines 240-245): under the lock, append the frame's ndarray
bytes to the buffer; return the frame unchanged. -/
def AudioProcessor.recv (s : AudioProcessor) (frame : AudioFrame) :
    AudioProcessor × AudioFrame × List LockEvent :=
  (⟨s.audio_frames ++ [frame.bytes]⟩, frame, [LockEvent.acq, LockEvent.rel])

/-- `get_frames` (src/app.py lines 247-249): under the lock, return a copy of the
buffer.  In the pure embedding the returned list is equal to the buffer and the
state is unchanged; a caller holds its own value and cannot mutate the buffer. -/
def AudioProcessor.get_frames (s : AudioProcessor) :
    AudioProcessor × List (List Nat) × List LockEvent :=
  (s, s.audio_frames, [LockEvent.acq, LockEvent.rel])

/-- `reset` (src/app.py lines 251-253): under the lock, replace the buffer with
an empty list. -/
def AudioProcessor.reset (_s : AudioProcessor) : AudioProcessor × List LockEvent :=
  (⟨[]⟩, [LockEvent.acq, LockEvent.rel])

/-- `get_frame_count` (src/app.py lines 255-257): under the lock, return the
length of the buffer. -/
def AudioProcessor.get_frame_count (s : AudioProcessor) :
    AudioProcessor × Nat × List LockEvent :=
  (s, s.audio_frames.length, [LockEvent.acq, LockEvent.rel])

/-- The proposition that no operation of the program coordinates concurrent
access to shared state, i.e. that no AudioProcessor method performs any lock
acquisition or release on the shared frame buffer. -/
def noConcurrencyCoordination : Prop :=
  (∀ (s : AudioProcessor) (f : AudioFrame), (AudioProcessor.recv s f).2.2 = []) ∧
  (∀ s : AudioProcessor, (AudioProcessor.get_frames s).2.2 = []) ∧
  (∀ s : AudioProcessor, (AudioProcessor.reset s).2 = []) ∧
  (∀ s : AudioProcessor, (AudioProcessor.get_frame_count s).2.2 = [])

/-- The pipeline stages a processing block invokes, in order: the
`transcribe_audio(...)` call, the `get_response(user_input)` call, and the
`text_to_speech(answer)` call. -/
inductive Stage where
  | transcribeCall : Stage
  | llmCall : String → Stage
  | ttsCall : String → Stage
deriving DecidableEq

/-- The observable outcome of one processing block: the final filesystem, the
ordered trace of stage calls, the transcription (`user_input`), the LLM reply
(`answer`) and the TTS file path it produced (already unlinked when `some`). -/
structure PipeResult where
  fs : FS
  trace : List Stage
  user_input : Option String
  answer : Option String
  tts_file : Option String
deriving DecidableEq

/-- The environment a processing block runs in: the two API keys, the
AssemblyAI per-attempt oracle, the HTTP oracle, the gTTS oracle, and the two
`int(time.time())` readings. -/
structure Config where
  assemblyai_key : Option String
  openrouter_key : Option String
  attempts : Nat → AttemptResult
  http : Payload → HttpResult
  gtts : Option Nat
  wav_now : Nat
  tts_now : Nat

/-- Collapse a Python result to what the calling block observes when the
exception would escape the whole script: `ret o` is `o`, an uncaught raise
aborts the block with no answer. -/
def pyOpt (r : PyResult (Option String)) : Option String :=
  match r with
  | PyResult.ret o => o
  | PyResult.raise _ => none

/-- Embeds the tab1 auto-process block (src/app.py lines 303-335): transcribe;
`if user_input:` (line 306, Python truthiness: None and the empty string are
falsy) get the LLM response; `if answer:` (line 313, truthiness again)
synthesise speech, play it, and unlink the MP3. -/
def tab1_process (cfg : Config) (audio_bytes : List Nat) (fs : FS) : PipeResult :=
  match transcribe_audio cfg.assemblyai_key cfg.attempts audio_bytes cfg.wav_now fs with
  | (fs1, _, none) => ⟨fs1, [Stage.transcribeCall], none, none, none⟩
  | (fs1, _, some u) =>
    if u = "" then ⟨fs1, [Stage.transcribeCall], some u, none, none⟩
    else
      match (get_response cfg.openrouter_key cfg.http u).2 with
      | PyResult.raise _ =>
        ⟨fs1, [Stage.transcribeCall, Stage.llmCall u], some u, none, none⟩
      | PyResult.ret none =>
        ⟨fs1, [Stage.transcribeCall, Stage.llmCall u], some u, none, none⟩
      | PyResult.ret (some a) =>
        if a = "" then
          ⟨fs1, [Stage.transcribeCall, Stage.llmCall u], some u, some a, none⟩
        else
          match text_to_speech cfg.gtts a cfg.tts_now fs1 with
          | (fs2, none) =>
            ⟨fs2, [Stage.transcribeCall, Stage.llmCall u, Stage.ttsCall a],
              some u, some a, none⟩
          | (fs2, some q) =>
            ⟨fsUnlink fs2 q,
              [Stage.transcribeCall, Stage.llmCall u, Stage.ttsCall a],
              some u, some a, some q⟩

/-- Embeds the tab2 Save & Process block from the point where the joined audio
byte string is in hand (src/app.py lines 428-460): transcribe; `if user_input:`
(line 431, Python truthiness) get the LLM response; `if answer:` (line 438,
truthiness) synthesise speech, play it, and unlink the MP3. -/
def webrtc_process (cfg : Config) (audio_bytes : List Nat) (fs : FS) : PipeResult :=
  match transcribe_audio cfg.assemblyai_key cfg.attempts audio_bytes cfg.wav_now fs with
  | (fs1, _, none) => ⟨fs1, [Stage.transcribeCall], none, none, none⟩
  | (fs1, _, some u) =>
    if u = "" then ⟨fs1, [Stage.transcribeCall], some u, none, none⟩
    else
      match (get_response cfg.openrouter_key cfg.http u).2 with
      | PyResult.raise _ =>
        ⟨fs1, [Stage.transcribeCall, Stage.llmCall u], some u, none, none⟩
      | PyResult.ret none =>
        ⟨fs1, [Stage.transcribeCall, Stage.llmCall u], some u, none, none⟩
      | PyResult.ret (some a) =>
        if a = "" then
          ⟨fs1, [Stage.transcribeCall, Stage.llmCall u], some u, some a, none⟩
        else
          match text_to_speech cfg.gtts a cfg.tts_now fs1 with
          | (fs2, none) =>
            ⟨fs2, [Stage.transcribeCall, Stage.llmCall u, Stage.ttsCall a],
              some u, some a, none⟩
          | (fs2, some q) =>
            ⟨fsUnlink fs2 q,
              [Stage.transcribeCall, Stage.llmCall u, Stage.ttsCall a],
              some u, some a, some q⟩

/-- Embeds the duplicated simple-recorder auto-process block (src/app.py lines
501-533): transcribe; `if user_input:` (line 504, Python truthiness) get the
LLM response; `if answer:` (line 511, truthiness) synthesise speech, play it,
and unlink the MP3. -/
def simple_recorder_process (cfg : Config) (audio_bytes : List Nat) (fs : FS) :
    PipeResult :=
  match transcribe_audio cfg.assemblyai_key cfg.attempts audio_bytes cfg.wav_now fs with
  | (fs1, _, none) => ⟨fs1, [Stage.transcribeCall], none, none, none⟩
  | (fs1, _, some u) =>
    if u = "" then ⟨fs1, [Stage.transcribeCall], some u, none, none⟩
    else
      match (get_response cfg.openrouter_key cfg.http u).2 with
      | PyResult.raise _ =>
        ⟨fs1, [Stage.transcribeCall, Stage.llmCall u], some u, none, none⟩
      | PyResult.ret none =>
        ⟨fs1, [Stage.transcribeCall, Stage.llmCall u], some u, none, none⟩
      | PyResult.ret (some a) =>
        if a = "" then
          ⟨fs1, [Stage.transcribeCall, Stage.llmCall u], some u, some a, none⟩
        else
          match text_to_speech cfg.gtts a cfg.tts_now fs1 with
          | (fs2, none) =>
            ⟨fs2, [Stage.transcribeCall, Stage.llmCall u, Stage.ttsCall a],
              some u, some a, none⟩
          | (fs2, some q) =>
            ⟨fsUnlink fs2 q,
              [Stage.transcribeCall, Stage.llmCall u, Stage.ttsCall a],
              some u, some a, some q⟩

/-- Modelled from the spec: the heuristic MFCC/DTW word-spotting transcriber
lives in a prototype file of the repository that is not among the embedded
sources; the spec describes it as a toy with a 2-3 word fixed vocabulary.  The
vocabulary words themselves are representative. -/
def mfccDtwVocabulary : List String := ["yes", "no", "hello"]

/-- Modelled from the spec: the arbitrary DTW distance threshold of the
word-spotting prototype. -/
def mfccDtwThreshold : Nat := 150

/-- Modelled from the spec: the in-code comment of the word-spotting prototype
describing it as a placeholder. -/
def mfccDtwPlaceholderNote : String := "placeholder"

/-- Modelled from the spec: the word-spotting heuristic; given the DTW distance
of the input's MFCC features to each vocabulary template, pick the closest
vocabulary word and report it only when its distance is under the threshold. -/
def mfccDtwTranscribe (dist : String → Nat) : Option String :=
  match mfccDtwVocabulary with
  | [] => none
  | w :: ws =>
    let best := ws.foldl (fun b v => if dist v < dist b then v else b) w
    if dist best < mfccDtwThreshold then some best else none

/-! ## Helper lemmas -/

/-- Deleting the path just written removes exactly the writes to that path:
the filesystem is as if the path had simply been unlinked. -/
theorem fsUnlink_fsWrite (fs : FS) (p : String) (d : FileData) :
    fsUnlink (fsWrite fs p d) p = fsUnlink fs p := by
  simp [fsUnlink, fsWrite, List.filter_filter]

/-- On input of at least 1000 bytes, save_as_wav (at the Python default
arguments) writes the WAV file and returns its path. -/
theorem save_as_wav_some (fs : FS) (ab : List Nat) (now : Nat)
    (h : 1000 ≤ ab.length) :
    save_as_wav fs ab 48000 1 2 now =
      (fsWrite fs (recording_path now)
        ⟨WAVE_HEADER_SIZE + ab.length, some ⟨1, 2, 48000⟩⟩,
       some (recording_path now)) := by
  have hne : ab.isEmpty = false := by
    rcases ab with _ | ⟨a, l⟩
    · simp at h
    · rfl
  simp only [save_as_wav]
  split_ifs with h1 h2
  · exfalso
    rcases h1 with h1 | h1
    · rw [hne] at h1
      exact Bool.false_ne_true h1
    · omega
  · exfalso
    simp only [WAVE_HEADER_SIZE] at h2
    omega
  · rfl

/-! ## Claim theorems -/

/-- Claim C8: save_as_wav returns None on empty or sub-1000-byte input; a
non-None result names the WAV file it just wrote with 1 channel, 2-byte sample
width and 48000 frames per second, of on-disk size at least 1000 bytes; and
whenever it returns None the filesystem is unchanged, so any file it wrote was
deleted before returning. -/
theorem c8_save_as_wav (audio_bytes : List Nat) (now : Nat) (fs : FS) :
    (audio_bytes.length < 1000 →
      save_as_wav fs audio_bytes 48000 1 2 now = (fs, none)) ∧
    (∀ p, (save_as_wav fs audio_bytes 48000 1 2 now).2 = some p →
      p = recording_path now ∧
      (p, FileData.mk (WAVE_HEADER_SIZE + audio_bytes.length)
            (some (WavParams.mk 1 2 48000)))
          ∈ (save_as_wav fs audio_bytes 48000 1 2 now).1 ∧
      1000 ≤ WAVE_HEADER_SIZE + audio_bytes.length) ∧
    ((save_as_wav fs audio_bytes 48000 1 2 now).2 = none →
      (save_as_wav fs audio_bytes 48000 1 2 now).1 = fs) := by
  refine ⟨?_, ?_, ?_⟩
  · intro h
    simp [save_as_wav, h]
  · intro p hp
    by_cases hlen : audio_bytes.length < 1000
    · simp [save_as_wav, hlen] at hp
    · rw [save_as_wav_some fs audio_bytes now (by omega)] at hp ⊢
      have hp0 : recording_path now = p := by simpa using hp
      have hp' : p = recording_path now := hp0.symm
      subst hp'
      refine ⟨rfl, ?_, by simp only [WAVE_HEADER_SIZE]; omega⟩
      simp only [fsWrite]
      exact List.mem_cons_self _ _
  · intro h
    by_cases hlen : audio_bytes.length < 1000
    · simp [save_as_wav, hlen]
    · rw [save_as_wav_some fs audio_bytes now (by omega)] at h
      simp at h

/-- Claim C8 witness: a 999-byte-free empty recording is rejected with the
filesystem untouched, and a 1000-byte recording is saved at the expected path
with the default WAV parameters. -/
theorem c8_save_as_wav_witness :
    save_as_wav [] [] 48000 1 2 0 = ([], none) ∧
    (recording_path 5,
      FileData.mk (WAVE_HEADER_SIZE + (List.replicate 1000 0).length)
        (some (WavParams.mk 1 2 48000)))
        ∈ (save_as_wav [] (List.replicate 1000 0) 48000 1 2 5).1 :=
  ⟨(c8_save_as_wav [] 0 []).1 (by decide),
   ((c8_save_as_wav (List.replicate 1000 0) 5 []).2.1 (recording_path 5)
      (by rw [save_as_wav_some [] (List.replicate 1000 0) 5
        (by simp only [List.length_replicate]; exact le_rfl)])).2.1⟩

/-- Claim C10: AudioProcessor's frame-buffer invariant.  A fresh or reset
processor holds no frames; recv appends exactly the frame's byte string and
returns the input frame unchanged; get_frames returns the buffer's value
without changing the state; get_frame_count reads the state without changing it
and always equals the length of what get_frames returns. -/
theorem c10_audio_processor_invariants (s : AudioProcessor) (f : AudioFrame) :
    AudioProcessor.init.audio_frames = [] ∧
    (AudioProcessor.get_frame_count AudioProcessor.init).2.1 = 0 ∧
    (AudioProcessor.reset s).1.audio_frames = [] ∧
    (AudioProcessor.recv s f).1.audio_frames = s.audio_frames ++ [f.bytes] ∧
    (AudioProcessor.recv s f).2.1 = f ∧
    (AudioProcessor.get_frames s).2.1 = s.audio_frames ∧
    (AudioProcessor.get_frames s).1 = s ∧
    (AudioProcessor.get_frame_count s).1 = s ∧
    (AudioProcessor.get_frame_count s).2.1 =
      (AudioProcessor.get_frames s).2.1.length :=
  ⟨rfl, rfl, rfl, rfl, rfl, rfl, rfl, rfl, rfl⟩

/-- Claim C7 counterexample: it is false that no code of the program performs
concurrency coordination on shared state; AudioProcessor.recv acquires and
releases the threading.Lock guarding the shared frame buffer (shown here at the
freshly initialised processor and an empty frame). -/
theorem c7_counterexample : ¬ noConcurrencyCoordination := by
  intro h
  have h1 := h.1 AudioProcessor.init ⟨[]⟩
  simp [AudioProcessor.recv] at h1

/-- Claim C7 (amended): the program's concurrency coordination is exactly
AudioProcessor's lock discipline: each of recv, get_frames, reset and
get_frame_count brackets its access to the shared frame buffer in one
acquisition and one release of the threading.Lock. -/
theorem c7_lock_guarded (s : AudioProcessor) (f : AudioFrame) :
    (AudioProcessor.recv s f).2.2 = [LockEvent.acq, LockEvent.rel] ∧
    (AudioProcessor.get_frames s).2.2 = [LockEvent.acq, LockEvent.rel] ∧
    (AudioProcessor.reset s).2 = [LockEvent.acq, LockEvent.rel] ∧
    (AudioProcessor.get_frame_count s).2.2 = [LockEvent.acq, LockEvent.rel] :=
  ⟨rfl, rfl, rfl, rfl⟩

/-- Claim C6: the MFCC/DTW word-spotting transcriber (modelled from the spec) is
a toy: a fixed vocabulary of 2-3 words, a positive arbitrary distance threshold,
an in-code placeholder note, and every word it ever reports is from the fixed
vocabulary. -/
theorem c6_mfcc_dtw_toy :
    2 ≤ mfccDtwVocabulary.length ∧ mfccDtwVocabulary.length ≤ 3 ∧
    0 < mfccDtwThreshold ∧ mfccDtwPlaceholderNote = "placeholder" ∧
    ∀ d : String → Nat,
      (mfccDtwTranscribe d).elim True (fun w => w ∈ mfccDtwVocabulary) := by
  refine ⟨by decide, by decide, by decide, rfl, ?_⟩
  intro d
  simp only [mfccDtwTranscribe, mfccDtwVocabulary, List.foldl]
  split_ifs <;> simp [mfccDtwVocabulary]

/-- Claim C5: get_response is a pass-through to OpenRouter.  With no API key it
returns None and makes no HTTP request; with a key it posts exactly the payload
with model "openai/gpt-4o-mini" and the prompt as the single user message;
on a RequestException it returns None; on a successful response it returns
exactly the content of the first choice's message. -/
theorem c5_get_response_passthrough (http : Payload → HttpResult)
    (prompt k : String) :
    get_response none http prompt = (none, PyResult.ret none) ∧
    (get_response (some k) http prompt).1 = some (payloadOf prompt) ∧
    (payloadOf prompt).model = "openai/gpt-4o-mini" ∧
    (payloadOf prompt).messages = [ChatMessage.mk "user" prompt] ∧
    (∀ e, http (payloadOf prompt) = HttpResult.reqExn e →
      (get_response (some k) http prompt).2 = PyResult.ret none) ∧
    (∀ result c rest, http (payloadOf prompt) = HttpResult.ok result →
      result.choices = c :: rest →
      (get_response (some k) http prompt).2 =
        PyResult.ret (some c.message.content)) := by
  refine ⟨rfl, ?_, rfl, rfl, ?_, ?_⟩
  · cases h : http (payloadOf prompt) with
    | reqExn e => simp [get_response, h]
    | ok result => cases hc : result.choices <;> simp [get_response, h, hc]
  · intro e he
    simp [get_response, he]
  · intro result c rest hr hc
    simp [get_response, hr, hc]

/-- Claim C5 witness: with a key and a server answering one choice "hi", the
call returns exactly that content. -/
theorem c5_get_response_witness :
    (get_response (some "k")
        (fun _ => HttpResult.ok
          (ChatResponse.mk [ChatChoice.mk (ChatMessage.mk "assistant" "hi")]))
        "ping").2 = PyResult.ret (some "hi") :=
  (c5_get_response_passthrough
      (fun _ => HttpResult.ok
        (ChatResponse.mk [ChatChoice.mk (ChatMessage.mk "assistant" "hi")]))
      "ping" "k").2.2.2.2.2
    (ChatResponse.mk [ChatChoice.mk (ChatMessage.mk "assistant" "hi")])
    (ChatChoice.mk (ChatMessage.mk "assistant" "hi")) [] rfl rfl

/-- Claim C3: given the same audio byte string, the mic-recorder block (tab1),
the WebRTC block (tab2) and the duplicated simple-recorder block run the same
composed pipeline transcribe_audio, then get_response, then text_to_speech, with
identical arguments: the three embedded blocks are the same function. -/
theorem c3_pipelines_equal (cfg : Config) (audio_bytes : List Nat) (fs : FS) :
    webrtc_process cfg audio_bytes fs = tab1_process cfg audio_bytes fs ∧
    simple_recorder_process cfg audio_bytes fs = tab1_process cfg audio_bytes fs :=
  ⟨rfl, rfl⟩

/-! ## Retry-loop lemmas -/

/-- save_as_wav on empty or short input: nothing is written. -/
theorem save_as_wav_short (fs : FS) (ab : List Nat) (now : Nat)
    (h : ab.length < 1000) :
    save_as_wav fs ab 48000 1 2 now = (fs, none) := by
  simp [save_as_wav, h]

/-- A failed attempt (SDK raise or error-status transcript) makes
attemptBody raise. -/
theorem attemptBody_fail (r : AttemptResult) (fs : FS) (fp : String)
    (h : isFailedAttempt r = true) :
    ∃ e, attemptBody r fs fp = Except.error e := by
  cases r with
  | exn e => exact ⟨e, rfl⟩
  | errorStatus e => exact ⟨"Transcription error: " ++ e, rfl⟩
  | ok raw => simp [isFailedAttempt] at h

/-- A returning attempt always unlinks the WAV file first. -/
theorem attemptBody_ok_fs (r : AttemptResult) (fs : FS) (fp : String)
    (fs1 : FS) (t : Option String)
    (h : attemptBody r fs fp = Except.ok (fs1, t)) :
    fs1 = fsUnlink fs fp := by
  cases r with
  | exn e => simp [attemptBody] at h
  | errorStatus e => simp [attemptBody] at h
  | ok raw =>
    simp only [attemptBody] at h
    split_ifs at h with h1 h2 <;>
      (injection h with h3; injection h3 with ha hb; exact ha.symm)

/-- A text an attempt returns is non-empty and its lowercasing is outside the
hallucination filter list. -/
theorem attemptBody_ok_text (r : AttemptResult) (fs : FS) (fp : String)
    (fs1 : FS) (t : String)
    (h : attemptBody r fs fp = Except.ok (fs1, some t)) :
    t ≠ "" ∧ pyLower t ∉ hallucination_list := by
  cases r with
  | exn e => simp [attemptBody] at h
  | errorStatus e => simp [attemptBody] at h
  | ok raw =>
    simp only [attemptBody] at h
    split_ifs at h with h1 h2
    · injection h with h3
      injection h3 with ha hb
      exact absurd hb (by simp)
    · injection h with h3
      injection h3 with ha hb
      rw [hb] at h1 h2
      simp only [optTruthy, bne_iff_ne, ne_eq, decide_eq_true_eq] at h2
      refine ⟨h2, ?_⟩
      intro hmem
      exact h1 ⟨by simpa [optTruthy] using h2, by simpa using hmem⟩
    · injection h with h3
      injection h3 with ha hb
      exact absurd hb (by simp)

/-- The retry loop never writes: if it escapes with an exception, the
filesystem is what it was given. -/
theorem retryLoop_error_fs (env : Nat → AttemptResult) (fp : String) :
    ∀ (remaining attempt : Nat) (fs fs1 : FS) (evs : List TEvent) (e : String),
      retryLoop env fp attempt remaining fs = (fs1, evs, Except.error e) →
      fs1 = fs := by
  intro remaining
  induction remaining with
  | zero =>
    intro attempt fs fs1 evs e h
    simp [retryLoop, Prod.mk.injEq] at h
  | succ r ih =>
    intro attempt fs fs1 evs e h
    simp only [retryLoop] at h
    cases hb : attemptBody (env attempt) fs fp with
    | ok res =>
      rw [hb] at h
      simp [Prod.mk.injEq] at h
    | error e2 =>
      rw [hb] at h
      split_ifs at h with hr
      · simp only [Prod.mk.injEq] at h
        exact h.1.symm
      · rcases hR : retryLoop env fp (attempt + 1) r fs with ⟨rfs, revs, rres⟩
        rw [hR] at h
        simp only [Prod.mk.injEq] at h
        obtain ⟨h1, _, h3⟩ := h
        have := ih (attempt + 1) fs rfs revs e (by rw [hR, h3])
        rw [← h1, this]

/-- When at least one attempt is left, a normal return of the retry loop leaves
the filesystem with the WAV file unlinked. -/
theorem retryLoop_ok_fs (env : Nat → AttemptResult) (fp : String) :
    ∀ (remaining attempt : Nat) (fs fs1 : FS) (evs : List TEvent)
      (t : Option String),
      0 < remaining →
      retryLoop env fp attempt remaining fs = (fs1, evs, Except.ok t) →
      fs1 = fsUnlink fs fp := by
  intro remaining
  induction remaining with
  | zero =>
    intro attempt fs fs1 evs t hpos h
    exact absurd hpos (by omega)
  | succ r ih =>
    intro attempt fs fs1 evs t hpos h
    simp only [retryLoop] at h
    cases hb : attemptBody (env attempt) fs fp with
    | ok res =>
      rw [hb] at h
      simp only [Prod.mk.injEq] at h
      obtain ⟨h1, _, _⟩ := h
      rw [← h1]
      exact attemptBody_ok_fs (env attempt) fs fp res.1 res.2 (by rw [hb])
    | error e2 =>
      rw [hb] at h
      split_ifs at h with hr
      · simp [Prod.mk.injEq] at h
      · rcases hR : retryLoop env fp (attempt + 1) r fs with ⟨rfs, revs, rres⟩
        rw [hR] at h
        simp only [Prod.mk.injEq] at h
        obtain ⟨h1, _, h3⟩ := h
        have := ih (attempt + 1) fs rfs revs t (by omega) (by rw [hR, h3])
        rw [← h1, this]

/-- Any text the retry loop returns is non-empty and outside the hallucination
filter list after lowercasing. -/
theorem retryLoop_ok_text (env : Nat → AttemptResult) (fp : String) :
    ∀ (remaining attempt : Nat) (fs fs1 : FS) (evs : List TEvent) (t : String),
      retryLoop env fp attempt remaining fs = (fs1, evs, Except.ok (some t)) →
      t ≠ "" ∧ pyLower t ∉ hallucination_list := by
  intro remaining
  induction remaining with
  | zero =>
    intro attempt fs fs1 evs t h
    simp [retryLoop, Prod.mk.injEq] at h
  | succ r ih =>
    intro attempt fs fs1 evs t h
    simp only [retryLoop] at h
    cases hb : attemptBody (env attempt) fs fp with
    | ok res =>
      rw [hb] at h
      simp only [Prod.mk.injEq] at h
      obtain ⟨_, _, h3⟩ := h
      injection h3 with h4
      exact attemptBody_ok_text (env attempt) fs fp res.1 t (by rw [hb, ← h4])
    | error e2 =>
      rw [hb] at h
      split_ifs at h with hr
      · simp [Prod.mk.injEq] at h
      · rcases hR : retryLoop env fp (attempt + 1) r fs with ⟨rfs, revs, rres⟩
        rw [hR] at h
        simp only [Prod.mk.injEq] at h
        obtain ⟨_, _, h3⟩ := h
        exact ih (attempt + 1) fs rfs revs t (by rw [hR, h3])

/-- The retry loop performs at most `remaining` transcribe calls. -/
theorem retryLoop_count (env : Nat → AttemptResult) (fp : String) :
    ∀ (remaining attempt : Nat) (fs : FS),
      countAttemptCalls (retryLoop env fp attempt remaining fs).2.1 ≤ remaining := by
  intro remaining
  induction remaining with
  | zero =>
    intro attempt fs
    simp [retryLoop, countAttemptCalls]
  | succ r ih =>
    intro attempt fs
    simp only [retryLoop]
    cases hb : attemptBody (env attempt) fs fp with
    | ok res => simp [countAttemptCalls]
    | error e2 =>
      split_ifs with hr
      · simp [countAttemptCalls]
      · have := ih (attempt + 1) fs
        simp only [countAttemptCalls, List.filter, List.length_cons] at this ⊢
        omega

/-- When all three attempts fail, the retry loop at `retries = 3` performs
exactly the trace attempt, sleep 2s, attempt, sleep 2s, attempt, re-raises, and
leaves the filesystem unchanged. -/
theorem retryLoop_allfail (env : Nat → AttemptResult) (fp : String) (fs : FS)
    (h0 : isFailedAttempt (env 0) = true) (h1 : isFailedAttempt (env 1) = true)
    (h2 : isFailedAttempt (env 2) = true) :
    (retryLoop env fp 0 3 fs).1 = fs ∧
    (retryLoop env fp 0 3 fs).2.1 =
      [TEvent.attemptCall 0, TEvent.sleepSec 2, TEvent.attemptCall 1,
       TEvent.sleepSec 2, TEvent.attemptCall 2] ∧
    ∃ e, (retryLoop env fp 0 3 fs).2.2 = Except.error e := by
  obtain ⟨e0, he0⟩ := attemptBody_fail (env 0) fs fp h0
  obtain ⟨e1, he1⟩ := attemptBody_fail (env 1) fs fp h1
  obtain ⟨e2, he2⟩ := attemptBody_fail (env 2) fs fp h2
  refine ⟨?_, ?_, e2, ?_⟩ <;> simp [retryLoop, he0, he1, he2]

/-- transcribe_audio either leaves the filesystem alone (early return) or has
removed exactly its own WAV recording. -/
theorem transcribe_fs (api_key : Option String) (env : Nat → AttemptResult)
    (audio_bytes : List Nat) (now : Nat) (fs : FS) :
    (transcribe_audio api_key env audio_bytes now fs).1 = fs ∨
    (transcribe_audio api_key env audio_bytes now fs).1 =
      fsUnlink fs (recording_path now) := by
  by_cases hemp : audio_bytes.isEmpty = true
  · left; simp [transcribe_audio, hemp]
  · by_cases hkey : api_key.isNone = true
    · left; simp [transcribe_audio, hemp, hkey]
    · by_cases hlen : audio_bytes.length < 1000
      · left
        simp [transcribe_audio, hemp, hkey, save_as_wav_short fs audio_bytes now hlen]
      · have hs := save_as_wav_some fs audio_bytes now (by omega)
        rcases hr : retryLoop env (recording_path now) 0 3
            (fsWrite fs (recording_path now)
              ⟨WAVE_HEADER_SIZE + audio_bytes.length, some ⟨1, 2, 48000⟩⟩)
          with ⟨fs2, evs, res⟩
        cases res with
        | ok t =>
          right
          have hfs2 := retryLoop_ok_fs env (recording_path now) 3 0 _ fs2 evs t
            (by omega) hr
          simp [transcribe_audio, hemp, hkey, hs, hr, hfs2, fsUnlink_fsWrite]
        | error e =>
          right
          have hfs2 := retryLoop_error_fs env (recording_path now) 3 0 _ fs2 evs e hr
          simp [transcribe_audio, hemp, hkey, hs, hr, hfs2, fsUnlink_fsWrite]

/-- When transcribe_audio returns a text, it has removed exactly its own WAV
recording from the filesystem. -/
theorem transcribe_some_fs (api_key : Option String) (env : Nat → AttemptResult)
    (audio_bytes : List Nat) (now : Nat) (fs : FS) (t : String)
    (h : (transcribe_audio api_key env audio_bytes now fs).2.2 = some t) :
    (transcribe_audio api_key env audio_bytes now fs).1 =
      fsUnlink fs (recording_path now) := by
  by_cases hemp : audio_bytes.isEmpty = true
  · simp [transcribe_audio, hemp] at h
  · by_cases hkey : api_key.isNone = true
    · simp [transcribe_audio, hemp, hkey] at h
    · by_cases hlen : audio_bytes.length < 1000
      · simp [transcribe_audio, hemp, hkey,
          save_as_wav_short fs audio_bytes now hlen] at h
      · have hs := save_as_wav_some fs audio_bytes now (by omega)
        rcases hr : retryLoop env (recording_path now) 0 3
            (fsWrite fs (recording_path now)
              ⟨WAVE_HEADER_SIZE + audio_bytes.length, some ⟨1, 2, 48000⟩⟩)
          with ⟨fs2, evs, res⟩
        cases res with
        | ok t2 =>
          have hfs2 := retryLoop_ok_fs env (recording_path now) 3 0 _ fs2 evs t2
            (by omega) hr
          simp [transcribe_audio, hemp, hkey, hs, hr, hfs2, fsUnlink_fsWrite]
        | error e =>
          simp [transcribe_audio, hemp, hkey, hs, hr] at h

/-- Claim C2: transcribe_audio's failure handling around the AssemblyAI SDK is
the retry loop: the transcribe call runs at most 3 times; an error-status
transcript raises and counts as a failed attempt; when all three attempts fail
the trace is attempt, 2-second sleep, attempt, 2-second sleep, attempt, and the
function returns None. -/
theorem c2_retry_behavior (api_key : Option String) (env : Nat → AttemptResult)
    (audio_bytes : List Nat) (now : Nat) (fs : FS) :
    countAttemptCalls (transcribe_audio api_key env audio_bytes now fs).2.1 ≤ 3 ∧
    (∀ e, isFailedAttempt (AttemptResult.errorStatus e) = true) ∧
    (api_key.isSome = true → 1000 ≤ audio_bytes.length →
      (∀ i, i < 3 → isFailedAttempt (env i) = true) →
      (transcribe_audio api_key env audio_bytes now fs).2.1 =
        [TEvent.attemptCall 0, TEvent.sleepSec 2, TEvent.attemptCall 1,
         TEvent.sleepSec 2, TEvent.attemptCall 2] ∧
      (transcribe_audio api_key env audio_bytes now fs).2.2 = none) := by
  refine ⟨?_, fun e => rfl, ?_⟩
  · by_cases hemp : audio_bytes.isEmpty = true
    · simp [transcribe_audio, hemp, countAttemptCalls]
    · by_cases hkey : api_key.isNone = true
      · simp [transcribe_audio, hemp, hkey, countAttemptCalls]
      · rcases hs : save_as_wav fs audio_bytes 48000 1 2 now with ⟨fs1, o⟩
        cases o with
        | none => simp [transcribe_audio, hemp, hkey, hs, countAttemptCalls]
        | some fp =>
          rcases hr : retryLoop env fp 0 3 fs1 with ⟨fs2, evs, res⟩
          have hc := retryLoop_count env fp 3 0 fs1
          rw [hr] at hc
          cases res with
          | ok t =>
            simpa [transcribe_audio, hemp, hkey, hs, hr] using hc
          | error e =>
            simpa [transcribe_audio, hemp, hkey, hs, hr] using hc
  · intro hkey hlen hfail
    have hemp : audio_bytes.isEmpty = false := by
      rcases audio_bytes with _ | ⟨a, l⟩
      · simp at hlen
      · rfl
    have hkn : api_key.isNone = false := by
      cases api_key
      · simp at hkey
      · rfl
    have hs := save_as_wav_some fs audio_bytes now hlen
    obtain ⟨hafs, haevs, e, hae⟩ :=
      retryLoop_allfail env (recording_path now)
        (fsWrite fs (recording_path now)
          ⟨WAVE_HEADER_SIZE + audio_bytes.length, some ⟨1, 2, 48000⟩⟩)
        (hfail 0 (by omega)) (hfail 1 (by omega)) (hfail 2 (by omega))
    rcases hr : retryLoop env (recording_path now) 0 3
        (fsWrite fs (recording_path now)
          ⟨WAVE_HEADER_SIZE + audio_bytes.length, some ⟨1, 2, 48000⟩⟩)
      with ⟨fs2, evs, res⟩
    rw [hr] at haevs hae
    dsimp only at haevs hae
    constructor
    · simp [transcribe_audio, hemp, hkn, hs, hr, hae, haevs]
    · simp [transcribe_audio, hemp, hkn, hs, hr, hae]

/-- Claim C2 witness: with a key, a 1000-byte recording and an AssemblyAI
oracle whose transcripts always have error status, the recorded trace is
exactly three attempts separated by 2-second sleeps, and the result is None. -/
theorem c2_retry_witness :
    (transcribe_audio (some "k") (fun _ => AttemptResult.errorStatus "bad")
        (List.replicate 1000 0) 0 []).2.1 =
      [TEvent.attemptCall 0, TEvent.sleepSec 2, TEvent.attemptCall 1,
       TEvent.sleepSec 2, TEvent.attemptCall 2] ∧
    (transcribe_audio (some "k") (fun _ => AttemptResult.errorStatus "bad")
        (List.replicate 1000 0) 0 []).2.2 = none :=
  (c2_retry_behavior (some "k") (fun _ => AttemptResult.errorStatus "bad")
      (List.replicate 1000 0) 0 []).2.2 rfl
    (by simp only [List.length_replicate]; exact le_rfl) (fun i _ => rfl)

/-- Claim C9: transcribe_audio never returns the empty string nor any letter
casing of "thank you", "thank you." or "thanks for watching": every non-None
result is a non-empty string whose lowercasing is outside that set. -/
theorem c9_no_hallucination_strings (api_key : Option String)
    (env : Nat → AttemptResult) (audio_bytes : List Nat) (now : Nat) (fs : FS)
    (t : String)
    (h : (transcribe_audio api_key env audio_bytes now fs).2.2 = some t) :
    t ≠ "" ∧
      pyLower t ∉ ["thank you", "thank you.", "thanks for watching"] := by
  by_cases hemp : audio_bytes.isEmpty = true
  · simp [transcribe_audio, hemp] at h
  · by_cases hkey : api_key.isNone = true
    · simp [transcribe_audio, hemp, hkey] at h
    · rcases hs : save_as_wav fs audio_bytes 48000 1 2 now with ⟨fs1, o⟩
      cases o with
      | none => simp [transcribe_audio, hemp, hkey, hs] at h
      | some fp =>
        rcases hr : retryLoop env fp 0 3 fs1 with ⟨fs2, evs, res⟩
        cases res with
        | ok t2 =>
          have ht2 : t2 = some t := by
            simpa [transcribe_audio, hemp, hkey, hs, hr] using h
          obtain ⟨h1, h2⟩ := retryLoop_ok_text env fp 3 0 fs1 fs2 evs t
            (by rw [hr, ht2])
          refine ⟨h1, fun hmem => h2 ?_⟩
          simp only [hallucination_list]
          simp only [List.mem_cons, List.mem_singleton] at hmem ⊢
          tauto
        | error e => simp [transcribe_audio, hemp, hkey, hs, hr] at h

set_option maxRecDepth 40000 in
/-- Claim C9 witness: a clean transcript "Hello there" passes the filter and is
returned; it is non-empty and outside the hallucination set. -/
theorem c9_no_hallucination_witness :
    "Hello there" ≠ "" ∧
    pyLower "Hello there" ∉ ["thank you", "thank you.", "thanks for watching"] :=
  c9_no_hallucination_strings (some "k")
    (fun _ => AttemptResult.ok (some "Hello there"))
    (List.replicate 1000 0) 0 [] "Hello there" (by decide)

/-- Claim C4: the program keeps no persistent state in ./audio_files: after a
processing block finishes, the filesystem is the initial one, or the initial
one with the block's own WAV recording removed, or with both its WAV recording
and its TTS MP3 removed — every file the block wrote has been unlinked on the
success, hallucination/empty-text and exception paths alike. -/
theorem c4_no_persistent_files (cfg : Config) (audio_bytes : List Nat) (fs : FS) :
    (tab1_process cfg audio_bytes fs).fs = fs ∨
    (tab1_process cfg audio_bytes fs).fs =
      fsUnlink fs (recording_path cfg.wav_now) ∨
    (tab1_process cfg audio_bytes fs).fs =
      fsUnlink (fsUnlink fs (recording_path cfg.wav_now))
        (tts_path cfg.tts_now) := by
  rcases ht : transcribe_audio cfg.assemblyai_key cfg.attempts audio_bytes
      cfg.wav_now fs with ⟨fs1, evs, u⟩
  have hts := transcribe_fs cfg.assemblyai_key cfg.attempts audio_bytes
    cfg.wav_now fs
  rw [ht] at hts
  dsimp only at hts
  cases u with
  | none =>
    have : (tab1_process cfg audio_bytes fs).fs = fs1 := by
      simp [tab1_process, ht]
    rw [this]
    rcases hts with h | h
    · exact Or.inl h
    · exact Or.inr (Or.inl h)
  | some t =>
    have hsome : fs1 = fsUnlink fs (recording_path cfg.wav_now) := by
      have := transcribe_some_fs cfg.assemblyai_key cfg.attempts audio_bytes
        cfg.wav_now fs t (by rw [ht])
      rw [ht] at this
      exact this
    by_cases ht0 : t = ""
    · refine Or.inr (Or.inl ?_)
      simp [tab1_process, ht, ht0, hsome]
    · cases hg : (get_response cfg.openrouter_key cfg.http t).2 with
      | raise e =>
        refine Or.inr (Or.inl ?_)
        simp [tab1_process, ht, ht0, hg, hsome]
      | ret o =>
        cases o with
        | none =>
          refine Or.inr (Or.inl ?_)
          simp [tab1_process, ht, ht0, hg, hsome]
        | some a =>
          by_cases ha0 : a = ""
          · refine Or.inr (Or.inl ?_)
            simp [tab1_process, ht, ht0, hg, ha0, hsome]
          · cases hz : cfg.gtts with
            | none =>
              refine Or.inr (Or.inl ?_)
              simp [tab1_process, ht, ht0, hg, ha0, text_to_speech, hz, hsome]
            | some sz =>
              refine Or.inr (Or.inr ?_)
              simp [tab1_process, ht, ht0, hg, ha0, text_to_speech, hz,
                fsUnlink_fsWrite, hsome]

/-- Claim C1: a processing block runs the stages in the fixed order transcribe,
LLM, TTS.  `user_input` is exactly transcribe_audio's result; a None
transcription means nothing after the transcribe call runs; the LLM call
appears in the trace only with a non-None transcription as its argument,
directly after the transcribe call; a None reply means the TTS call never
runs; the TTS call appears only with a non-None reply as its argument, as the
third stage; and the reply is get_response's result for the transcribed text.
(The source guards are Python truthiness, so an empty-string value also stops
the pipeline — stricter than, and hence consistent with, the claim.) -/
theorem c1_stage_order (cfg : Config) (audio_bytes : List Nat) (fs : FS) :
    (tab1_process cfg audio_bytes fs).user_input =
      (transcribe_audio cfg.assemblyai_key cfg.attempts audio_bytes
        cfg.wav_now fs).2.2 ∧
    ((tab1_process cfg audio_bytes fs).user_input = none →
      (tab1_process cfg audio_bytes fs).trace = [Stage.transcribeCall]) ∧
    (∀ t, Stage.llmCall t ∈ (tab1_process cfg audio_bytes fs).trace →
      (tab1_process cfg audio_bytes fs).user_input = some t ∧
      ((tab1_process cfg audio_bytes fs).trace =
          [Stage.transcribeCall, Stage.llmCall t] ∨
        ∃ a, (tab1_process cfg audio_bytes fs).trace =
          [Stage.transcribeCall, Stage.llmCall t, Stage.ttsCall a])) ∧
    ((tab1_process cfg audio_bytes fs).answer = none →
      ∀ a, Stage.ttsCall a ∉ (tab1_process cfg audio_bytes fs).trace) ∧
    (∀ a, Stage.ttsCall a ∈ (tab1_process cfg audio_bytes fs).trace →
      (tab1_process cfg audio_bytes fs).answer = some a ∧
      ∃ t, (tab1_process cfg audio_bytes fs).trace =
        [Stage.transcribeCall, Stage.llmCall t, Stage.ttsCall a]) ∧
    (∀ t, (tab1_process cfg audio_bytes fs).user_input = some t → t ≠ "" →
      (tab1_process cfg audio_bytes fs).answer =
        pyOpt (get_response cfg.openrouter_key cfg.http t).2) := by
  rcases ht : transcribe_audio cfg.assemblyai_key cfg.attempts audio_bytes
      cfg.wav_now fs with ⟨fs1, evs, u⟩
  cases u with
  | none => simp [tab1_process, ht]
  | some t =>
    by_cases ht0 : t = ""
    · subst ht0
      simp [tab1_process, ht]
    · cases hg : (get_response cfg.openrouter_key cfg.http t).2 with
      | raise e => simp [tab1_process, ht, ht0, hg, pyOpt]
      | ret o =>
        cases o with
        | none => simp [tab1_process, ht, ht0, hg, pyOpt]
        | some a =>
          by_cases ha0 : a = ""
          · subst ha0
            simp [tab1_process, ht, ht0, hg, pyOpt]
          · rcases hz : text_to_speech cfg.gtts a cfg.tts_now fs1 with ⟨fs2, q⟩
            cases q <;> simp [tab1_process, ht, ht0, ha0, hg, hz, pyOpt]

set_option maxRecDepth 40000 in
/-- Claim C1 witness: on a concrete full-success run (working keys, clean
transcript, reply "Hi", working gTTS) the TTS stage did run, with the LLM's
reply as its argument, as the third stage after transcribe and LLM. -/
theorem c1_stage_order_witness :
    (tab1_process
        ⟨some "k", some "k2", fun _ => AttemptResult.ok (some "Hello there"),
          fun _ => HttpResult.ok
            (ChatResponse.mk [ChatChoice.mk (ChatMessage.mk "assistant" "Hi")]),
          some 5, 0, 1⟩
        (List.replicate 1000 0) []).answer = some "Hi" ∧
    ∃ t, (tab1_process
        ⟨some "k", some "k2", fun _ => AttemptResult.ok (some "Hello there"),
          fun _ => HttpResult.ok
            (ChatResponse.mk [ChatChoice.mk (ChatMessage.mk "assistant" "Hi")]),
          some 5, 0, 1⟩
        (List.replicate 1000 0) []).trace =
      [Stage.transcribeCall, Stage.llmCall t, Stage.ttsCall "Hi"] :=
  (c1_stage_order
      ⟨some "k", some "k2", fun _ => AttemptResult.ok (some "Hello there"),
        fun _ => HttpResult.ok
          (ChatResponse.mk [ChatChoice.mk (ChatMessage.mk "assistant" "Hi")]),
        some 5, 0, 1⟩
      (List.replicate 1000 0) []).2.2.2.2.1 "Hi" (by decide)
